import Mathlib

/-!
Verification development for the CRDT-Server repository.

The definitions below are a shallow embedding of the server sources:
`server/src/actions.ts`, `server/src/auth.ts`, `server/src/persist.ts`,
`server/src/listDocStore.ts` (second embedded document), the filter module
(second document of `server/src/db.ts`) and the two session-loop variants
contained in `unnamed/part_012`.  Automerge documents are modelled as plain
data; `Automerge.change` bodies that may throw become `Except String`
results (a thrown error aborts the change, leaving the document unchanged).
Wall-clock timestamps and `randomUUID` results are passed as parameters.
-/

instance {ε α : Type} [DecidableEq ε] [DecidableEq α] : DecidableEq (Except ε α)
  | .ok x, .ok y => decidable_of_iff (x = y) (by simp)
  | .error x, .error y => decidable_of_iff (x = y) (by simp)
  | .ok _, .error _ => isFalse (by simp)
  | .error _, .ok _ => isFalse (by simp)

abbrev UserId := String
abbrev ListId := String
abbrev ItemId := String
abbrev BulletinId := String

/-- Visibility from `server/src/types.ts` (`'public' | 'private'`);
`priv` stands for the string `'private'`. -/
inductive Visibility
  | public
  | priv
deriving DecidableEq, Repr

/-- ListRegistryEntry from `server/src/types.ts`; collaborator records
(`Record<UserId, true>`) are modelled as their key lists. -/
structure ListRegistryEntry where
  id : ListId
  ownerId : UserId
  name : String
  createdAt : String
  updatedAt : Option String
  visibility : Visibility
  collaborators : List UserId
  archived : Bool
deriving DecidableEq, Repr

structure ListRegistryDoc where
  lists : List ListRegistryEntry
deriving DecidableEq, Repr

structure ListItem where
  id : ItemId
  label : String
  createdAt : String
  addedBy : UserId
  quantity : Option String
  vendor : Option String
  notes : Option String
  checked : Bool
deriving DecidableEq, Repr

structure ShoppingListDoc where
  listId : ListId
  items : List ListItem
deriving DecidableEq, Repr

structure Bulletin where
  id : BulletinId
  authorId : UserId
  text : String
  createdAt : String
  editedAt : Option String
  visibility : Visibility
deriving DecidableEq, Repr

structure BulletinDoc where
  bulletins : List Bulletin
deriving DecidableEq, Repr

/-- ListAccess from `server/src/actions.ts`. -/
structure ListAccess where
  ownerId : UserId
  visibility : Visibility
  collaborators : List UserId
  archived : Bool
deriving DecidableEq, Repr

def MAX_NAME_LENGTH : Nat := 200
def MAX_NOTES_LENGTH : Nat := 2000
def MAX_STRING_FIELD_LENGTH : Nat := 200
def MAX_LISTS_PER_USER : Nat := 200
def MAX_ITEMS_PER_LIST : Nat := 1000
def MAX_BULLETIN_TEXT : Nat := 2000

/-- JS `String.prototype.trim`: strip whitespace from both ends
(structural, over the character list). -/
def jsTrim (s : String) : String :=
  String.mk (((s.data.dropWhile Char.isWhitespace).reverse.dropWhile
    Char.isWhitespace).reverse)

/-- JS `String.prototype.slice(0, n)`: the first `n` characters. -/
def sliceTo (s : String) (n : Nat) : String :=
  String.mk (s.data.take n)

/-- Mutation of the first element matched by `find`/`findIndex` inside an
`Automerge.change` body. -/
def updateFirst (p : α → Bool) (f : α → α) : List α → List α
  | [] => []
  | x :: xs => if p x then f x :: xs else x :: updateFirst p f xs

/-- `splice(index, 1)` at the first matching index. -/
def removeFirst (p : α → Bool) : List α → List α
  | [] => []
  | x :: xs => if p x then xs else x :: removeFirst p xs

/-- requireListName from `server/src/actions.ts`. -/
def requireListName (raw : String) : Except String String :=
  let trimmed := jsTrim raw
  if trimmed = "" then .error "Name required"
  else if trimmed.length > MAX_NAME_LENGTH then .error "Name too long"
  else .ok trimmed

/-- requireItemLabel from `server/src/actions.ts`. -/
def requireItemLabel (raw : String) : Except String String :=
  let trimmed := jsTrim raw
  if trimmed = "" then .error "Label required"
  else if trimmed.length > MAX_NAME_LENGTH then .error "Label too long"
  else .ok trimmed

/-- requireBulletinText from `server/src/actions.ts`. -/
def requireBulletinText (raw : String) : Except String String :=
  let trimmed := jsTrim raw
  if trimmed = "" then .error "Text must be non-empty"
  else if trimmed.length > MAX_BULLETIN_TEXT then .error "Text exceeds allowed length"
  else .ok trimmed

/-- trimOptionalField from `server/src/actions.ts`; the `undefined` and
empty-string falsy cases both yield `none`, long values are sliced. -/
def trimOptionalField (value : Option String) : Option String :=
  match value with
  | none => none
  | some v =>
    if v = "" then none
    else
      let trimmed := jsTrim v
      if trimmed = "" then none
      else some (sliceTo trimmed MAX_STRING_FIELD_LENGTH)

/-- trimNotes from `server/src/actions.ts`; over-long notes throw. -/
def trimNotes (value : Option String) : Except String (Option String) :=
  match value with
  | none => .ok none
  | some v =>
    if v = "" then .ok none
    else
      let trimmed := jsTrim v
      if trimmed = "" then .ok none
      else if trimmed.length > MAX_NOTES_LENGTH then .error "Notes too long"
      else .ok (some trimmed)

/-- One step of the `Set` construction in uniqueCollaborators: skip ids that
are empty after trimming or equal the owner, keep first occurrences. -/
def collabStep (ownerId : UserId) (acc : List UserId) (id : UserId) : List UserId :=
  let trimmed := jsTrim id
  if trimmed = "" ∨ trimmed = ownerId then acc
  else if trimmed ∈ acc then acc
  else acc ++ [trimmed]

/-- uniqueCollaborators from `server/src/actions.ts`. -/
def uniqueCollaborators (collaborators : List UserId) (ownerId : UserId) : List UserId :=
  collaborators.foldl (collabStep ownerId) []

/-- requireListEntry from `server/src/actions.ts`. -/
def requireListEntry (doc : ListRegistryDoc) (listId : ListId) :
    Except String ListRegistryEntry :=
  match doc.lists.find? (fun l => l.id == listId) with
  | some entry => .ok entry
  | none => .error "List not found"

/-- ensureOwner from `server/src/actions.ts`. -/
def ensureOwner (entry : ListRegistryEntry) (userId : UserId) : Except String Unit :=
  if entry.ownerId ≠ userId then .error "Forbidden" else .ok ()

/-- ensureCanEditMetadata from `server/src/actions.ts`, over the fields it
reads (owner or collaborator may proceed). -/
def ensureCanEditMetadata (ownerId : UserId) (collaborators : List UserId)
    (userId : UserId) : Except String Unit :=
  if ownerId = userId then .ok ()
  else if userId ∈ collaborators then .ok ()
  else .error "Forbidden"

/-- ensureListEditable from `server/src/actions.ts`. -/
def ensureListEditable (entry : ListAccess) (userId : UserId) : Except String Unit :=
  if entry.archived then .error "List is archived"
  else if entry.visibility = .public then .ok ()
  else ensureCanEditMetadata entry.ownerId entry.collaborators userId

/-- createList from `server/src/actions.ts`; `freshListId` stands for
`randomUUID()` and `now` for `new Date().toISOString()`. -/
def createList (doc : ListRegistryDoc) (userId : UserId) (rawName : String)
    (visibility : Visibility) (collaborators : List UserId)
    (freshListId : ListId) (now : String) :
    Except String (ListRegistryDoc × ListId) := do
  let name ← requireListName rawName
  let cleanedCollabs := uniqueCollaborators collaborators userId
  let ownedCount :=
    (doc.lists.filter (fun entry => entry.ownerId == userId && !entry.archived)).length
  if ownedCount ≥ MAX_LISTS_PER_USER then
    .error "List limit reached"
  else
    .ok ({ lists := doc.lists ++
      [{ id := freshListId, ownerId := userId, name := name, createdAt := now,
         updatedAt := none, visibility := visibility,
         collaborators := cleanedCollabs, archived := false }] }, freshListId)

/-- renameList from `server/src/actions.ts` (metadata check allows owner or
collaborator). -/
def renameList (doc : ListRegistryDoc) (userId : UserId) (listId : ListId)
    (rawName : String) (now : String) : Except String ListRegistryDoc := do
  let name ← requireListName rawName
  let entry ← requireListEntry doc listId
  let _ ← ensureCanEditMetadata entry.ownerId entry.collaborators userId
  let lists := updateFirst (fun l => l.id == listId)
    (fun l => { l with name := name, updatedAt := some now }) doc.lists
  .ok { lists := lists }

/-- updateListVisibility from `server/src/actions.ts` (owner only). -/
def updateListVisibility (doc : ListRegistryDoc) (userId : UserId) (listId : ListId)
    (visibility : Visibility) (now : String) : Except String ListRegistryDoc := do
  let entry ← requireListEntry doc listId
  let _ ← ensureOwner entry userId
  let lists := updateFirst (fun l => l.id == listId)
    (fun l => { l with visibility := visibility, updatedAt := some now }) doc.lists
  .ok { lists := lists }

/-- setCollaborators from `server/src/actions.ts` (owner only). -/
def setCollaborators (doc : ListRegistryDoc) (userId : UserId) (listId : ListId)
    (collaborators : List UserId) (now : String) : Except String ListRegistryDoc := do
  let entry ← requireListEntry doc listId
  let _ ← ensureOwner entry userId
  let cleaned := uniqueCollaborators collaborators userId
  let lists := updateFirst (fun l => l.id == listId)
    (fun l => { l with collaborators := cleaned, updatedAt := some now }) doc.lists
  .ok { lists := lists }

/-- archiveList from `server/src/actions.ts` (owner only; also used for
restore with `archived := false`). -/
def archiveList (doc : ListRegistryDoc) (userId : UserId) (listId : ListId)
    (archived : Bool) (now : String) : Except String ListRegistryDoc := do
  let entry ← requireListEntry doc listId
  let _ ← ensureOwner entry userId
  let lists := updateFirst (fun l => l.id == listId)
    (fun l => { l with archived := archived, updatedAt := some now }) doc.lists
  .ok { lists := lists }

/-- deleteListEntry from `server/src/actions.ts` (owner only). -/
def deleteListEntry (doc : ListRegistryDoc) (userId : UserId) (listId : ListId) :
    Except String ListRegistryDoc := do
  let entry ← requireListEntry doc listId
  let _ ← ensureOwner entry userId
  .ok { lists := removeFirst (fun l => l.id == listId) doc.lists }

/-- addItem from `server/src/actions.ts`. -/
def addItem (doc : ShoppingListDoc) (entry : ListAccess) (userId : UserId)
    (rawLabel : String) (quantity vendor : Option String)
    (freshItemId : ItemId) (now : String) : Except String ShoppingListDoc := do
  let _ ← ensureListEditable entry userId
  let label ← requireItemLabel rawLabel
  if doc.items.length ≥ MAX_ITEMS_PER_LIST then
    .error "Item limit reached"
  else
    let item : ListItem :=
      { id := freshItemId, label := label, createdAt := now, addedBy := userId,
        quantity := trimOptionalField quantity, vendor := trimOptionalField vendor,
        notes := none, checked := false }
    .ok { doc with items := doc.items ++ [item] }

/-- updateItemLabel from `server/src/actions.ts`. -/
def updateItemLabel (doc : ShoppingListDoc) (entry : ListAccess) (userId : UserId)
    (itemId : ItemId) (rawLabel : String) : Except String ShoppingListDoc := do
  let _ ← ensureListEditable entry userId
  let label ← requireItemLabel rawLabel
  if doc.items.any (fun i => i.id == itemId) then
    let items := updateFirst (fun i => i.id == itemId)
      (fun i => { i with label := label }) doc.items
    .ok { doc with items := items }
  else .error "Item not found"

/-- setItemQuantity from `server/src/actions.ts`. -/
def setItemQuantity (doc : ShoppingListDoc) (entry : ListAccess) (userId : UserId)
    (itemId : ItemId) (quantity : Option String) : Except String ShoppingListDoc := do
  let _ ← ensureListEditable entry userId
  if doc.items.any (fun i => i.id == itemId) then
    let items := updateFirst (fun i => i.id == itemId)
      (fun i => { i with quantity := trimOptionalField quantity }) doc.items
    .ok { doc with items := items }
  else .error "Item not found"

/-- setItemVendor from `server/src/actions.ts`. -/
def setItemVendor (doc : ShoppingListDoc) (entry : ListAccess) (userId : UserId)
    (itemId : ItemId) (vendor : Option String) : Except String ShoppingListDoc := do
  let _ ← ensureListEditable entry userId
  if doc.items.any (fun i => i.id == itemId) then
    let items := updateFirst (fun i => i.id == itemId)
      (fun i => { i with vendor := trimOptionalField vendor }) doc.items
    .ok { doc with items := items }
  else .error "Item not found"

/-- setItemNotes from `server/src/actions.ts`. -/
def setItemNotes (doc : ShoppingListDoc) (entry : ListAccess) (userId : UserId)
    (itemId : ItemId) (notes : Option String) : Except String ShoppingListDoc := do
  let _ ← ensureListEditable entry userId
  let trimmed ← trimNotes notes
  if doc.items.any (fun i => i.id == itemId) then
    let items := updateFirst (fun i => i.id == itemId)
      (fun i => { i with notes := trimmed }) doc.items
    .ok { doc with items := items }
  else .error "Item not found"

/-- toggleItemChecked from `server/src/actions.ts`; the target boolean is
set explicitly, never flipped. -/
def toggleItemChecked (doc : ShoppingListDoc) (entry : ListAccess) (userId : UserId)
    (itemId : ItemId) (checked : Bool) : Except String ShoppingListDoc := do
  let _ ← ensureListEditable entry userId
  if doc.items.any (fun i => i.id == itemId) then
    let items := updateFirst (fun i => i.id == itemId)
      (fun i => { i with checked := checked }) doc.items
    .ok { doc with items := items }
  else .error "Item not found"

/-- removeItem from `server/src/actions.ts`. -/
def removeItem (doc : ShoppingListDoc) (entry : ListAccess) (userId : UserId)
    (itemId : ItemId) : Except String ShoppingListDoc := do
  let _ ← ensureListEditable entry userId
  if doc.items.any (fun i => i.id == itemId) then
    .ok { doc with items := removeFirst (fun i => i.id == itemId) doc.items }
  else .error "Item not found"

/-- addBulletin from `server/src/actions.ts`. -/
def addBulletin (doc : BulletinDoc) (userId : UserId) (rawText : String)
    (visibility : Visibility) (freshId : BulletinId) (now : String) :
    Except String BulletinDoc := do
  let text ← requireBulletinText rawText
  .ok { bulletins := doc.bulletins ++
    [{ id := freshId, authorId := userId, text := text, createdAt := now,
       editedAt := none, visibility := visibility }] }

/-- editBulletin from `server/src/actions.ts` (author only). -/
def editBulletin (doc : BulletinDoc) (userId : UserId) (bulletinId : BulletinId)
    (rawText : String) (now : String) : Except String BulletinDoc := do
  let text ← requireBulletinText rawText
  match doc.bulletins.find? (fun b => b.id == bulletinId) with
  | none => .error "Bulletin not found"
  | some bulletin =>
    if bulletin.authorId ≠ userId then .error "Forbidden"
    else
      let bulletins := updateFirst (fun b => b.id == bulletinId)
        (fun b => { b with text := text, editedAt := some now }) doc.bulletins
      .ok { bulletins := bulletins }

/-- deleteBulletin from `server/src/actions.ts` (author only). -/
def deleteBulletin (doc : BulletinDoc) (userId : UserId) (bulletinId : BulletinId) :
    Except String BulletinDoc := do
  match doc.bulletins.find? (fun b => b.id == bulletinId) with
  | none => .error "Bulletin not found"
  | some bulletin =>
    if bulletin.authorId ≠ userId then .error "Forbidden"
    else .ok { bulletins := removeFirst (fun b => b.id == bulletinId) doc.bulletins }

/-- isListVisibleTo from the filter module (second document of
`server/src/db.ts`): public, owner, or collaborator. -/
def isListVisibleTo (entry : ListRegistryEntry) (userId : UserId) : Bool :=
  if entry.visibility = .public then true
  else if entry.ownerId = userId then true
  else decide (userId ∈ entry.collaborators)

structure FilteredRegistryEntry where
  id : ListId
  ownerId : UserId
  name : String
  createdAt : String
  updatedAt : Option String
  visibility : Visibility
  collaborators : List UserId
  archived : Bool
deriving DecidableEq, Repr

structure FilteredItem where
  id : ItemId
  label : String
  createdAt : String
  addedBy : UserId
  quantity : Option String
  vendor : Option String
  notes : Option String
  checked : Bool
deriving DecidableEq, Repr

structure FilteredListDoc where
  listId : ListId
  items : List FilteredItem
deriving DecidableEq, Repr

structure FilteredBulletin where
  id : BulletinId
  authorId : UserId
  text : String
  createdAt : String
  editedAt : Option String
  visibility : Visibility
deriving DecidableEq, Repr

def toFilteredEntry (entry : ListRegistryEntry) : FilteredRegistryEntry :=
  { id := entry.id, ownerId := entry.ownerId, name := entry.name,
    createdAt := entry.createdAt, updatedAt := entry.updatedAt,
    visibility := entry.visibility, collaborators := entry.collaborators,
    archived := entry.archived }

/-- filterRegistryDoc from the filter module. -/
def filterRegistryDoc (doc : ListRegistryDoc) (userId : UserId) :
    List FilteredRegistryEntry :=
  (doc.lists.filter (fun entry => isListVisibleTo entry userId)).map toFilteredEntry

def toFilteredItem (item : ListItem) : FilteredItem :=
  { id := item.id, label := item.label, createdAt := item.createdAt,
    addedBy := item.addedBy, quantity := item.quantity, vendor := item.vendor,
    notes := item.notes, checked := item.checked }

/-- filterListDoc from the filter module; `none` when the viewer lacks
visibility. -/
def filterListDoc (doc : ShoppingListDoc) (entry : ListRegistryEntry)
    (userId : UserId) : Option FilteredListDoc :=
  if isListVisibleTo entry userId then
    some { listId := doc.listId, items := doc.items.map toFilteredItem }
  else none

/-- filterBulletins from the filter module. -/
def filterBulletins (doc : BulletinDoc) (userId : UserId) : List FilteredBulletin :=
  (doc.bulletins.filter (fun b => b.visibility == .public || b.authorId == userId)).map
    (fun b => { id := b.id, authorId := b.authorId, text := b.text,
                createdAt := b.createdAt, editedAt := b.editedAt,
                visibility := b.visibility })

/-- Case-insensitive match of the literal `Bearer` at the start of the
header (`/^Bearer\s+(.*)$/i` in `server/src/auth.ts`). -/
def bearerCaseMatch (cs : List Char) : Option (List Char) :=
  match cs with
  | b :: e :: a :: r :: e2 :: r2 :: rest =>
    if [b, e, a, r, e2, r2].map Char.toLower = ['b', 'e', 'a', 'r', 'e', 'r']
    then some rest else none
  | _ => none

/-- extractBearerToken from `server/src/auth.ts`.  `\s+` must consume at
least one whitespace character and the captured `(.*)` cannot span line
terminators. -/
def extractBearerToken (header : Option String) : Option String :=
  match header with
  | none => none
  | some h =>
    match bearerCaseMatch h.data with
    | none => none
    | some rest =>
      let ws := rest.takeWhile Char.isWhitespace
      let tok := rest.dropWhile Char.isWhitespace
      if ws.isEmpty then none
      else if tok.any (fun c => c = '\n' ∨ c = '\r') then none
      else some (String.mk tok)

/-- Character class `[a-z0-9_-]` of the username pattern in
`server/src/auth.ts`. -/
def isUsernameChar (c : Char) : Bool :=
  decide (('a' ≤ c ∧ c ≤ 'z') ∨ ('0' ≤ c ∧ c ≤ '9') ∨ c = '_' ∨ c = '-')

/-- extractUsernameFromQuery from `server/src/auth.ts`; the `raw` argument
stands for `url.searchParams.get('username')` (absent or empty query values
are both falsy). -/
def extractUsernameFromQuery (raw : Option String) : Option String :=
  match raw with
  | none => none
  | some r =>
    if r = "" then none
    else
      let username := String.mk ((jsTrim r).data.map Char.toLower)
      if 1 ≤ username.length ∧ username.length ≤ 32 ∧ username.data.all isUsernameChar
      then some username
      else none

/-- createAnonymousId from `server/src/auth.ts`; `freshUuid` stands for
`randomUUID()`. -/
def createAnonymousId (freshUuid : String) : UserId :=
  "anon-" ++ sliceTo freshUuid 8

/-- The fall-through of resolveUserId when no (truthy) bearer token is
present: username if valid, else anonymous. -/
def resolveUserIdFallback (usernameRaw : Option String) (freshUuid : String) : UserId :=
  match extractUsernameFromQuery usernameRaw with
  | some username => "user-" ++ username
  | none => createAnonymousId freshUuid

/-- resolveUserId from `server/src/auth.ts`; `hashToken` stands for the
sha256 hex digest.  A captured empty token is falsy in JS and falls through
to the username branch. -/
def resolveUserId (hashToken : String → String) (authHeader : Option String)
    (usernameRaw : Option String) (freshUuid : String) : UserId :=
  match extractBearerToken authHeader with
  | some token =>
    if token = "" then resolveUserIdFallback usernameRaw freshUuid
    else "user-" ++ sliceTo (hashToken token) 8
  | none => resolveUserIdFallback usernameRaw freshUuid

/-- Filesystem effects issued by the atomic-write helpers. -/
inductive FsOp
  | writeFile (path : String)
  | rename (src dest : String)
  | unlink (path : String)
deriving DecidableEq, Repr

/-- Temp path of writeFileAtomic in `server/src/persist.ts`:
`${targetPath}.tmp`, a pure function of the target alone. -/
def persistTmpPath (targetPath : String) : String :=
  targetPath ++ ".tmp"

/-- node `path.dirname` for the forward-slash paths used here
(`data/...`): the part before the last slash, `.` when there is none. -/
def dirname (p : String) : String :=
  if p.data.contains '/' then
    String.mk ((p.data.reverse.dropWhile (fun c => c ≠ '/')).drop 1).reverse
  else "."

/-- node `path.basename` for forward-slash paths: the part after the last
slash. -/
def basename (p : String) : String :=
  String.mk (p.data.reverse.takeWhile (fun c => c ≠ '/')).reverse

/-- node `path.join dir name` for the shapes used here. -/
def pathJoin (dir name : String) : String :=
  if dir = "." then name else dir ++ "/" ++ name

/-- Temp path of writeFileAtomic in the second document of
`server/src/listDocStore.ts`:
`dir/baseName.${process.pid}.${Date.now()}.${randomUUID()}.tmp`. -/
def listStoreTmpPath (targetPath pid nowMs uuid : String) : String :=
  pathJoin (dirname targetPath)
    (basename targetPath ++ "." ++ pid ++ "." ++ nowMs ++ "." ++ uuid ++ ".tmp")

/-- Operation trace of writeFileAtomic in `server/src/persist.ts`.  The
function has no catch handler, so the trace is the same whether or not the
rename succeeds: in particular no unlink is ever issued. -/
def writeFileAtomicPersistOps (targetPath : String) (_renameOk : Bool) : List FsOp :=
  [FsOp.writeFile (persistTmpPath targetPath),
   FsOp.rename (persistTmpPath targetPath) targetPath]

/-- Operation trace of writeFileAtomic in the second document of
`server/src/listDocStore.ts`: write temp, rename; on rename failure the
temp file is unlinked and the error rethrown. -/
def writeFileAtomicListStoreOps (targetPath pid nowMs uuid : String)
    (renameOk : Bool) : List FsOp :=
  let tmp := listStoreTmpPath targetPath pid nowMs uuid
  if renameOk then [FsOp.writeFile tmp, FsOp.rename tmp targetPath]
  else [FsOp.writeFile tmp, FsOp.rename tmp targetPath, FsOp.unlink tmp]

/-- TokenBucket from `unnamed/part_012`; float arithmetic is modelled over
the rationals, timestamps are `Date.now()` milliseconds. -/
structure TokenBucket where
  capacity : ℚ
  refillPerMs : ℚ
  tokens : ℚ
  lastRefill : ℚ
deriving DecidableEq, Repr

/-- TokenBucket constructor: starts full. -/
def TokenBucket.init (capacity refillPerSecond now : ℚ) : TokenBucket :=
  { capacity := capacity, refillPerMs := refillPerSecond / 1000,
    tokens := capacity, lastRefill := now }

/-- TokenBucket.refill from `unnamed/part_012`. -/
def TokenBucket.refill (b : TokenBucket) (now : ℚ) : TokenBucket :=
  if now ≤ b.lastRefill then b
  else { b with tokens := min b.capacity (b.tokens + (now - b.lastRefill) * b.refillPerMs),
                lastRefill := now }

/-- TokenBucket.tryRemove from `unnamed/part_012`; a rejection deducts
nothing. -/
def TokenBucket.tryRemove (b : TokenBucket) (now cost : ℚ) : Bool × TokenBucket :=
  let r := b.refill now
  if r.tokens < cost then (false, r)
  else (true, { r with tokens := r.tokens - cost })

def RATE_LIMIT_CAPACITY : ℚ := 40
def RATE_LIMIT_REFILL_PER_SECOND : ℚ := 20
def RATE_LIMIT_COST_ACTION : ℚ := 1
def RATE_LIMIT_COST_SYNC : ℚ := 1 / 4

/-- Document descriptors of `unnamed/part_012`. -/
inductive DocDescriptor
  | registry
  | bulletins
  | list (listId : ListId)
deriving DecidableEq, Repr

/-- descriptorKey from `unnamed/part_012`. -/
def descriptorKey : DocDescriptor → String
  | .registry => "registry"
  | .bulletins => "bulletins"
  | .list listId => "list:" ++ listId

/-- The union of document shapes handled by resolveDocForDescriptor. -/
inductive AnyDoc
  | registry (doc : ListRegistryDoc)
  | bulletins (doc : BulletinDoc)
  | list (doc : ShoppingListDoc)
deriving DecidableEq, Repr

inductive ErrorCode
  | BAD_REQUEST
  | FORBIDDEN
  | NOT_FOUND
  | RATE_LIMITED
deriving DecidableEq, Repr

inductive SnapshotState
  | registry (entries : List FilteredRegistryEntry)
  | bulletins (entries : List FilteredBulletin)
  | listState (state : FilteredListDoc)
deriving DecidableEq, Repr

/-- Outbound frames of the session loop; `β` is the opaque sync-payload
type (base64 bytes on the wire). -/
inductive ServerFrame (β : Type)
  | welcome (userId : UserId)
  | snapshot (doc : DocDescriptor) (state : SnapshotState)
  | syncMsg (doc : DocDescriptor) (data : β)
  | errorFrame (code : ErrorCode) (message : String)
deriving DecidableEq, Repr

/-- Lookup in a JS `Map` keyed by strings (insertion-ordered assoc list). -/
def lookupStr {α : Type} (m : List (String × α)) (k : String) : Option α :=
  (m.find? (fun p => p.1 == k)).map (fun p => p.2)

/-- `Map.set`: overwrite in place, else append. -/
def insertStr {α : Type} (m : List (String × α)) (k : String) (v : α) :
    List (String × α) :=
  if m.any (fun p => p.1 == k) then
    updateFirst (fun p => p.1 == k) (fun p => (p.1, v)) m
  else m ++ [(k, v)]

/-- `Map.delete`. -/
def eraseStr {α : Type} (m : List (String × α)) (k : String) : List (String × α) :=
  m.filter (fun p => !(p.1 == k))

structure Subscription (σ : Type) where
  descriptor : DocDescriptor
  syncState : σ
deriving DecidableEq

structure Connection (σ : Type) where
  userId : UserId
  socketOpen : Bool
  subscriptions : List (String × Subscription σ)
deriving DecidableEq

/-- In-memory server context of the second session-loop variant in
`unnamed/part_012` (lines 774-778). -/
structure ServerContext2 where
  registryDoc : ListRegistryDoc
  bulletinsDoc : BulletinDoc
  listDocs : List (ListId × ShoppingListDoc)
deriving DecidableEq

/-- resolveDocForDescriptor of the in-memory variant (`unnamed/part_012`
lines 1199-1213). -/
def resolveDocForDescriptor (ctx : ServerContext2) : DocDescriptor → Option AnyDoc
  | .registry => some (.registry ctx.registryDoc)
  | .bulletins => some (.bulletins ctx.bulletinsDoc)
  | .list listId => (lookupStr ctx.listDocs listId).map .list

/-- The unchecked `nextDoc as Doc<...>` casts at the end of the in-memory
handleSyncMessage; a kind mismatch cannot arise from the CRDT library. -/
def setDocForDescriptor (ctx : ServerContext2) :
    DocDescriptor → AnyDoc → ServerContext2
  | .registry, .registry d => { ctx with registryDoc := d }
  | .bulletins, .bulletins d => { ctx with bulletinsDoc := d }
  | .list listId, .list d => { ctx with listDocs := insertStr ctx.listDocs listId d }
  | _, _ => ctx

/-- subscribe of the in-memory variant (`unnamed/part_012` lines
1055-1071): the subscription is registered unconditionally; for list
docs the document is loaded into the cache (`loadList` stands for the
disk read of `crdt.ts` loadListDoc, which yields an empty document when
no blob exists).  No visibility check occurs here. -/
def subscribe_v2 {σ : Type} (initSync : σ) (loadList : ListId → ShoppingListDoc)
    (conn : Connection σ) (ctx : ServerContext2) (descriptor : DocDescriptor) :
    Connection σ × ServerContext2 :=
  let key := descriptorKey descriptor
  let conn2 :=
    if (lookupStr conn.subscriptions key).isSome then conn
    else { conn with subscriptions :=
            insertStr conn.subscriptions key ⟨descriptor, initSync⟩ }
  match descriptor with
  | .list listId =>
    if (lookupStr ctx.listDocs listId).isSome then (conn2, ctx)
    else (conn2, { ctx with listDocs := insertStr ctx.listDocs listId (loadList listId) })
  | _ => (conn2, ctx)

/-- sendSnapshot of the in-memory variant (`unnamed/part_012` lines
1091-1137); frames pass through sendJson, which drops them when the
socket is not open. -/
def sendSnapshot_v2 {σ : Type} {β : Type} (conn : Connection σ)
    (ctx : ServerContext2) (descriptor : DocDescriptor) : List (ServerFrame β) :=
  if !conn.socketOpen then []
  else
    match descriptor with
    | .registry =>
      [.snapshot .registry (.registry (filterRegistryDoc ctx.registryDoc conn.userId))]
    | .bulletins =>
      [.snapshot .bulletins (.bulletins (filterBulletins ctx.bulletinsDoc conn.userId))]
    | .list listId =>
      match ctx.registryDoc.lists.find? (fun l => l.id == listId) with
      | none => [.errorFrame .FORBIDDEN "No access to list"]
      | some entry =>
        if !isListVisibleTo entry conn.userId then
          [.errorFrame .FORBIDDEN "No access to list"]
        else
          match lookupStr ctx.listDocs listId with
          | none => [.errorFrame .NOT_FOUND "List document unavailable"]
          | some doc =>
            match filterListDoc doc entry conn.userId with
            | none => [.errorFrame .FORBIDDEN "No access to list"]
            | some filtered => [.snapshot (.list listId) (.listState filtered)]

/-- The `while (true)` generate loop of flushSync, with explicit fuel (the
source loops until `generateSyncMessage` yields no message). -/
def flushSyncLoop {σ β : Type} (generate : AnyDoc → σ → σ × Option β)
    (doc : AnyDoc) (descriptor : DocDescriptor) :
    Nat → σ → σ × List (ServerFrame β)
  | 0, s => (s, [])
  | fuel + 1, s =>
    match generate doc s with
    | (s2, none) => (s2, [])
    | (s2, some m) =>
      let (s3, frames) := flushSyncLoop generate doc descriptor fuel s2
      (s3, .syncMsg descriptor m :: frames)

/-- flushSync of the in-memory variant (`unnamed/part_012` lines
1139-1162).  Note: unlike the first (DB-backed) variant it has no
registry guard, and it performs no visibility check — the outbound loop
runs against the authoritative document for any present subscription. -/
def flushSync_v2 {σ β : Type} (generate : AnyDoc → σ → σ × Option β) (fuel : Nat)
    (conn : Connection σ) (ctx : ServerContext2) (descriptor : DocDescriptor) :
    Connection σ × List (ServerFrame β) :=
  match lookupStr conn.subscriptions (descriptorKey descriptor) with
  | none => (conn, [])
  | some sub =>
    if !conn.socketOpen then (conn, [])
    else
      match resolveDocForDescriptor ctx descriptor with
      | none => (conn, [])
      | some doc =>
        let (s2, frames) := flushSyncLoop generate doc descriptor fuel sub.syncState
        ({ conn with subscriptions :=
             insertStr conn.subscriptions (descriptorKey descriptor) ⟨descriptor, s2⟩ },
         frames)

/-- The `subscribe` case of the in-memory message dispatcher
(`unnamed/part_012` lines 858-862): subscribe, send snapshot, flush sync. -/
def handleSubscribe_v2 {σ β : Type} (initSync : σ)
    (loadList : ListId → ShoppingListDoc) (generate : AnyDoc → σ → σ × Option β)
    (fuel : Nat) (conn : Connection σ) (ctx : ServerContext2)
    (descriptor : DocDescriptor) :
    (Connection σ × ServerContext2) × List (ServerFrame β) :=
  let (c1, ctx1) := subscribe_v2 initSync loadList conn ctx descriptor
  let snapFrames : List (ServerFrame β) := sendSnapshot_v2 c1 ctx1 descriptor
  let (c2, syncFrames) := flushSync_v2 generate fuel c1 ctx1 descriptor
  ((c2, ctx1), snapFrames ++ syncFrames)

/-- handleSyncMessage of the in-memory variant (`unnamed/part_012` lines
1164-1197); `recv` stands for `Automerge.receiveSyncMessage`.  There is
no rejection of the registry descriptor: the received document replaces
`context.registryDoc`. -/
def handleSyncMessage_v2 {σ β : Type} (recv : AnyDoc → σ → β → AnyDoc × σ)
    (conn : Connection σ) (ctx : ServerContext2) (descriptor : DocDescriptor)
    (data : β) : Except String (Connection σ × ServerContext2) :=
  match lookupStr conn.subscriptions (descriptorKey descriptor) with
  | none => .error "Not subscribed to document"
  | some sub =>
    match resolveDocForDescriptor ctx descriptor with
    | none => .error "Document unavailable"
    | some doc =>
      let (nextDoc, nextSync) := recv doc sub.syncState data
      let subs := insertStr conn.subscriptions (descriptorKey descriptor)
        ⟨descriptor, nextSync⟩
      .ok ({ conn with subscriptions := subs }, setDocForDescriptor ctx descriptor nextDoc)

/-- handleSyncMessage of the first (DB-backed) variant (`unnamed/part_012`
lines 484-527) rejects the registry descriptor before touching any
document; the non-registry path (DB loads, receiveSyncMessage, broadcast)
is abstracted as `nonRegistry`. -/
def handleSyncMessage_v1 {α : Type} (nonRegistry : DocDescriptor → Except String α)
    (descriptor : DocDescriptor) : Except String α :=
  if descriptor = .registry then .error "Registry sync is not supported"
  else nonRegistry descriptor

/-- The catch-all of the message loop (`unnamed/part_012` lines 907-917,
identically lines 219-229): every error thrown while handling a frame is
answered with an `error` frame of code `BAD_REQUEST` carrying the thrown
message; the socket is not closed. -/
def dispatchFrames {β : Type} (r : Except String (List (ServerFrame β))) :
    List (ServerFrame β) :=
  match r with
  | .ok frames => frames
  | .error e => [.errorFrame .BAD_REQUEST e]

/-- Wire registry actions (`unnamed/part_012` lines 751-758). -/
inductive RegistryAction
  | create_list (name : String) (visibility : Option Visibility)
      (collaborators : Option (List UserId))
  | rename_list (listId : ListId) (name : String)
  | update_list_visibility (listId : ListId) (visibility : Visibility)
  | set_collaborators (listId : ListId) (collaborators : List UserId)
  | archive_list (listId : ListId)
  | restore_list (listId : ListId)
  | delete_list (listId : ListId)
deriving DecidableEq, Repr

/-- Wire bulletin actions (`unnamed/part_012` lines 769-772). -/
inductive BulletinAction
  | add_bulletin (text : String) (visibility : Option Visibility)
  | edit_bulletin (bulletinId : BulletinId) (text : String)
  | delete_bulletin (bulletinId : BulletinId)
deriving DecidableEq, Repr

/-- handleRegistryAction of the in-memory variant (`unnamed/part_012`
lines 930-983); `loadList` stands for crdt.ts loadListDoc (an empty
document for a fresh id), `freshListId`/`now` for `randomUUID()` and the
wall clock. -/
def handleRegistryAction_v2 (userId : UserId) (ctx : ServerContext2)
    (action : RegistryAction) (freshListId : ListId) (now : String)
    (loadList : ListId → ShoppingListDoc) : Except String ServerContext2 :=
  match action with
  | .create_list name visibility collaborators => do
    let r ← createList ctx.registryDoc userId name (visibility.getD .priv)
      (collaborators.getD []) freshListId now
    let listDocs := insertStr ctx.listDocs r.2 (loadList r.2)
    .ok { ctx with registryDoc := r.1, listDocs := listDocs }
  | .rename_list listId name => do
    let doc ← renameList ctx.registryDoc userId listId name now
    .ok { ctx with registryDoc := doc }
  | .update_list_visibility listId visibility => do
    let doc ← updateListVisibility ctx.registryDoc userId listId visibility now
    .ok { ctx with registryDoc := doc }
  | .set_collaborators listId collaborators => do
    let doc ← setCollaborators ctx.registryDoc userId listId collaborators now
    .ok { ctx with registryDoc := doc }
  | .archive_list listId => do
    let doc ← archiveList ctx.registryDoc userId listId true now
    .ok { ctx with registryDoc := doc }
  | .restore_list listId => do
    let doc ← archiveList ctx.registryDoc userId listId false now
    .ok { ctx with registryDoc := doc }
  | .delete_list listId => do
    let doc ← deleteListEntry ctx.registryDoc userId listId
    .ok { ctx with registryDoc := doc, listDocs := eraseStr ctx.listDocs listId }

/-- handleBulletinAction of the in-memory variant (`unnamed/part_012`
lines 1030-1053). -/
def handleBulletinActionFn (userId : UserId) (doc : BulletinDoc)
    (action : BulletinAction) (freshId : BulletinId) (now : String) :
    Except String BulletinDoc :=
  match action with
  | .add_bulletin text visibility =>
    addBulletin doc userId text (visibility.getD .public) freshId now
  | .edit_bulletin bulletinId text => editBulletin doc userId bulletinId text now
  | .delete_bulletin bulletinId => deleteBulletin doc userId bulletinId

/-- The `registry_action` case of the in-memory message dispatcher
(`unnamed/part_012` lines 866-873) together with its catch-all: consume
one token (a rejection answers `RATE_LIMITED` and drops the frame), apply
the action, and map a thrown error to an `error{BAD_REQUEST}` frame.  The
returned frames are those sent to the acting connection on these two
failure paths; a successful action goes on to save and broadcast and
closes nothing either. -/
def registryActionStep {β : Type} (conn : Connection Unit) (bucket : TokenBucket)
    (now : ℚ) (ctx : ServerContext2) (action : RegistryAction)
    (freshListId : ListId) (nowIso : String) (loadList : ListId → ShoppingListDoc) :
    (Connection Unit × TokenBucket × ServerContext2) × List (ServerFrame β) :=
  let r := bucket.tryRemove now RATE_LIMIT_COST_ACTION
  if !r.1 then
    ((conn, r.2, ctx),
     if conn.socketOpen then [.errorFrame .RATE_LIMITED "Too many requests"] else [])
  else
    match handleRegistryAction_v2 conn.userId ctx action freshListId nowIso loadList with
    | .error e =>
      ((conn, r.2, ctx),
       if conn.socketOpen then [.errorFrame .BAD_REQUEST e] else [])
    | .ok ctx2 => ((conn, r.2, ctx2), [])

/-- The `bulletin_action` case of the in-memory dispatcher
(`unnamed/part_012` lines 881-888) with its catch-all, analogously. -/
def bulletinActionStep {β : Type} (bucket : TokenBucket) (now : ℚ)
    (userId : UserId) (doc : BulletinDoc) (action : BulletinAction)
    (freshId : BulletinId) (nowIso : String) :
    (TokenBucket × BulletinDoc) × List (ServerFrame β) :=
  let r := bucket.tryRemove now RATE_LIMIT_COST_ACTION
  if !r.1 then
    ((r.2, doc), [.errorFrame .RATE_LIMITED "Too many requests"])
  else
    match handleBulletinActionFn userId doc action freshId nowIso with
    | .error e => ((r.2, doc), [.errorFrame .BAD_REQUEST e])
    | .ok doc2 => ((r.2, doc2), [])

/-- C10: when an upgrade request carries both a Bearer token and a valid
username parameter, resolveUserId returns `user-` followed by the first 8
characters of the token hash, ignoring the username; `user-<username>` is
returned only when no bearer token is present; with neither, the id is
`anon-` followed by the first 8 characters of the fresh UUID (8 characters
whenever the UUID is long enough; a v4 UUID starts with 8 hex digits). -/
theorem resolveUserId_precedence
    (hashToken : String → String) (authHeader : Option String)
    (usernameRaw : Option String) (freshUuid : String) :
    (∀ token, extractBearerToken authHeader = some token → token ≠ "" →
      resolveUserId hashToken authHeader usernameRaw freshUuid
        = "user-" ++ sliceTo (hashToken token) 8)
    ∧ (∀ username, extractBearerToken authHeader = none →
      extractUsernameFromQuery usernameRaw = some username →
      resolveUserId hashToken authHeader usernameRaw freshUuid
        = "user-" ++ username)
    ∧ (extractBearerToken authHeader = none →
      extractUsernameFromQuery usernameRaw = none →
      resolveUserId hashToken authHeader usernameRaw freshUuid
        = "anon-" ++ sliceTo freshUuid 8)
    ∧ (8 ≤ freshUuid.length → (sliceTo freshUuid 8).length = 8) := by
  refine ⟨?_, ?_, ?_, ?_⟩
  · intro token h htok
    simp only [resolveUserId, h]
    rw [if_neg htok]
  · intro username h hu
    simp only [resolveUserId, h, resolveUserIdFallback, hu]
  · intro h hu
    simp only [resolveUserId, h, resolveUserIdFallback, hu, createAnonymousId]
  · intro hlen
    show (freshUuid.data.take 8).length = 8
    rw [List.length_take]
    exact Nat.min_eq_left hlen

/-- Witness for resolveUserId_precedence at concrete requests. -/
theorem resolveUserId_precedence_witness :
    resolveUserId (fun _ => "0011223344") (some "Bearer t0k") (some "alice")
      "fedcba98-x" = "user-00112233"
  ∧ resolveUserId (fun _ => "0011223344") none (some "alice") "fedcba98-x"
      = "user-alice"
  ∧ resolveUserId (fun _ => "0011223344") none (some "@@") "fedcba98-x"
      = "anon-fedcba98"
  ∧ (sliceTo "fedcba98-x" 8).length = 8 := by
  refine ⟨?_, ?_, ?_, ?_⟩
  · exact ((resolveUserId_precedence (fun _ => "0011223344") (some "Bearer t0k")
      (some "alice") "fedcba98-x").1 "t0k" (by decide) (by decide)).trans (by decide)
  · exact ((resolveUserId_precedence (fun _ => "0011223344") none
      (some "alice") "fedcba98-x").2.1 "alice" (by decide) (by decide))
  · exact ((resolveUserId_precedence (fun _ => "0011223344") none
      (some "@@") "fedcba98-x").2.2.1 (by decide) (by decide)).trans (by decide)
  · exact (resolveUserId_precedence (fun _ => "0011223344") none
      (some "@@") "fedcba98-x").2.2.2 (by decide)

/-- C7: the text validators enforce the length bounds — name and label at
most 200 characters with longer input rejected, notes at most 2000 with
longer rejected, bulletin text at most 2000 with longer rejected, plain
optional strings truncated to at most 200 — and input that is empty after
trimming is rejected for name, label and bulletin text and yields an
absent value for quantity, vendor and notes. -/
theorem text_field_validation :
    MAX_NAME_LENGTH = 200 ∧ MAX_NOTES_LENGTH = 2000
    ∧ MAX_STRING_FIELD_LENGTH = 200 ∧ MAX_BULLETIN_TEXT = 2000
    ∧ (∀ raw s, requireListName raw = .ok s → s ≠ "" ∧ s.length ≤ MAX_NAME_LENGTH)
    ∧ (∀ raw, (jsTrim raw).length > MAX_NAME_LENGTH →
        requireListName raw = .error "Name too long")
    ∧ (∀ raw, jsTrim raw = "" → requireListName raw = .error "Name required")
    ∧ (∀ raw s, requireItemLabel raw = .ok s → s ≠ "" ∧ s.length ≤ MAX_NAME_LENGTH)
    ∧ (∀ raw, (jsTrim raw).length > MAX_NAME_LENGTH →
        requireItemLabel raw = .error "Label too long")
    ∧ (∀ raw, jsTrim raw = "" → requireItemLabel raw = .error "Label required")
    ∧ (∀ raw s, requireBulletinText raw = .ok s → s ≠ "" ∧ s.length ≤ MAX_BULLETIN_TEXT)
    ∧ (∀ raw, (jsTrim raw).length > MAX_BULLETIN_TEXT →
        requireBulletinText raw = .error "Text exceeds allowed length")
    ∧ (∀ raw, jsTrim raw = "" → requireBulletinText raw = .error "Text must be non-empty")
    ∧ (∀ v s, trimOptionalField v = some s → s.length ≤ MAX_STRING_FIELD_LENGTH)
    ∧ (∀ v, jsTrim v = "" → trimOptionalField (some v) = none)
    ∧ (∀ v s, trimNotes v = .ok (some s) → s ≠ "" ∧ s.length ≤ MAX_NOTES_LENGTH)
    ∧ (∀ v, (jsTrim v).length > MAX_NOTES_LENGTH →
        trimNotes (some v) = .error "Notes too long")
    ∧ (∀ v, jsTrim v = "" → trimNotes (some v) = .ok none) := by
  refine ⟨rfl, rfl, rfl, rfl, ?_, ?_, ?_, ?_, ?_, ?_, ?_, ?_, ?_, ?_, ?_, ?_, ?_, ?_⟩
  · intro raw s h
    by_cases h1 : jsTrim raw = ""
    · simp [requireListName, h1] at h
    · by_cases h2 : (jsTrim raw).length > MAX_NAME_LENGTH
      · simp [requireListName, h1, h2] at h
      · simp [requireListName, h1, h2] at h
        subst h
        exact ⟨h1, by omega⟩
  · intro raw h2
    have h1 : jsTrim raw ≠ "" := by
      intro h1
      rw [h1] at h2
      simp at h2
    simp [requireListName, h1, h2]
  · intro raw h1
    simp [requireListName, h1]
  · intro raw s h
    by_cases h1 : jsTrim raw = ""
    · simp [requireItemLabel, h1] at h
    · by_cases h2 : (jsTrim raw).length > MAX_NAME_LENGTH
      · simp [requireItemLabel, h1, h2] at h
      · simp [requireItemLabel, h1, h2] at h
        subst h
        exact ⟨h1, by omega⟩
  · intro raw h2
    have h1 : jsTrim raw ≠ "" := by
      intro h1
      rw [h1] at h2
      simp at h2
    simp [requireItemLabel, h1, h2]
  · intro raw h1
    simp [requireItemLabel, h1]
  · intro raw s h
    by_cases h1 : jsTrim raw = ""
    · simp [requireBulletinText, h1] at h
    · by_cases h2 : (jsTrim raw).length > MAX_BULLETIN_TEXT
      · simp [requireBulletinText, h1, h2] at h
      · simp [requireBulletinText, h1, h2] at h
        subst h
        exact ⟨h1, by omega⟩
  · intro raw h2
    have h1 : jsTrim raw ≠ "" := by
      intro h1
      rw [h1] at h2
      simp at h2
    simp [requireBulletinText, h1, h2]
  · intro raw h1
    simp [requireBulletinText, h1]
  · intro v s h
    match v with
    | none => simp [trimOptionalField] at h
    | some v =>
      by_cases h0 : v = ""
      · simp [trimOptionalField, h0] at h
      · by_cases h1 : jsTrim v = ""
        · simp [trimOptionalField, h0, h1] at h
        · simp [trimOptionalField, h0, h1] at h
          subst h
          show ((jsTrim v).data.take MAX_STRING_FIELD_LENGTH).length ≤ MAX_STRING_FIELD_LENGTH
          rw [List.length_take]
          omega
  · intro v h1
    by_cases h0 : v = ""
    · simp [trimOptionalField, h0]
    · simp [trimOptionalField, h0, h1]
  · intro v s h
    match v with
    | none => simp [trimNotes] at h
    | some v =>
      by_cases h0 : v = ""
      · simp [trimNotes, h0] at h
      · by_cases h1 : jsTrim v = ""
        · simp [trimNotes, h0, h1] at h
        · by_cases h2 : (jsTrim v).length > MAX_NOTES_LENGTH
          · simp [trimNotes, h0, h1, h2] at h
          · simp [trimNotes, h0, h1, h2] at h
            subst h
            exact ⟨h1, by omega⟩
  · intro v h2
    have h1 : jsTrim v ≠ "" := by
      intro h1
      rw [h1] at h2
      simp at h2
    have h0 : v ≠ "" := by
      intro h0
      subst h0
      exact h1 (by decide)
    simp [trimNotes, h0, h1, h2]
  · intro v h1
    by_cases h0 : v = ""
    · simp [trimNotes, h0]
    · simp [trimNotes, h0, h1]

/-- Witness for text_field_validation at concrete field values. -/
theorem text_field_validation_witness :
    requireListName " Groceries " = .ok "Groceries"
    ∧ ("Groceries" : String) ≠ "" ∧ ("Groceries" : String).length ≤ MAX_NAME_LENGTH
    ∧ requireListName "   " = .error "Name required"
    ∧ trimOptionalField (some "  ") = none
    ∧ trimNotes (some " ") = .ok none := by
  have h := text_field_validation
  refine ⟨by decide, ?_, ?_, ?_, ?_, ?_⟩
  · exact (h.2.2.2.2.1 " Groceries " "Groceries" (by decide)).1
  · exact (h.2.2.2.2.1 " Groceries " "Groceries" (by decide)).2
  · exact h.2.2.2.2.2.2.1 "   " (by decide)
  · exact h.2.2.2.2.2.2.2.2.2.2.2.2.2.2.1 "  " (by decide)
  · exact h.2.2.2.2.2.2.2.2.2.2.2.2.2.2.2.2.2 " " (by decide)

/-- C3 counterexample: renameList succeeds for a caller who is a
collaborator but not the owner (ensureCanEditMetadata admits
collaborators), so the claim that all six metadata actions require
`entry.ownerId = userId` is false at this input. -/
theorem rename_by_collaborator_succeeds :
    (renameList ⟨[⟨"l1", "alice", "Groceries", "t0", none, .priv, ["carol"], false⟩]⟩
      "carol" "l1" "NewName" "t1").isOk = true
    ∧ ("alice" : String) ≠ "carol" := by decide

/-- C3 amended: update_list_visibility, set_collaborators, archive_list,
restore_list (both via archiveList) and delete_list fail with `Forbidden`
whenever the entry's owner is not the caller; rename_list fails with
`Forbidden` only when the caller is neither owner nor collaborator, and
succeeds for a collaborator given a valid name.  A failing action returns
an error and yields no new registry document. -/
theorem registry_metadata_access (doc : ListRegistryDoc) (userId : UserId)
    (listId : ListId) (entry : ListRegistryEntry) (visibility : Visibility)
    (archived : Bool) (collaborators : List UserId) (rawName name now : String)
    (hfind : doc.lists.find? (fun l => l.id == listId) = some entry)
    (hown : entry.ownerId ≠ userId) :
    updateListVisibility doc userId listId visibility now = .error "Forbidden"
    ∧ setCollaborators doc userId listId collaborators now = .error "Forbidden"
    ∧ archiveList doc userId listId archived now = .error "Forbidden"
    ∧ deleteListEntry doc userId listId = .error "Forbidden"
    ∧ (userId ∉ entry.collaborators → requireListName rawName = .ok name →
        renameList doc userId listId rawName now = .error "Forbidden")
    ∧ (userId ∈ entry.collaborators → requireListName rawName = .ok name →
        (renameList doc userId listId rawName now).isOk = true) := by
  have hentry : requireListEntry doc listId = .ok entry := by
    simp [requireListEntry, hfind]
  have howner : ensureOwner entry userId = .error "Forbidden" := by
    simp [ensureOwner, hown]
  refine ⟨?_, ?_, ?_, ?_, ?_, ?_⟩
  · simp [updateListVisibility, Bind.bind, Except.bind, hentry, howner]
  · simp [setCollaborators, Bind.bind, Except.bind, hentry, howner]
  · simp [archiveList, Bind.bind, Except.bind, hentry, howner]
  · simp [deleteListEntry, Bind.bind, Except.bind, hentry, howner]
  · intro hcollab hname
    have hmeta : ensureCanEditMetadata entry.ownerId entry.collaborators userId
        = .error "Forbidden" := by
      simp [ensureCanEditMetadata, hown, hcollab]
    simp [renameList, Bind.bind, Except.bind, hname, hentry, hmeta]
  · intro hcollab hname
    have hmeta : ensureCanEditMetadata entry.ownerId entry.collaborators userId
        = .ok () := by
      simp [ensureCanEditMetadata, hown, hcollab]
    simp [renameList, Bind.bind, Except.bind, hname, hentry, hmeta, Except.isOk,
      Except.toBool]

/-- Witness for registry_metadata_access at a concrete registry. -/
theorem registry_metadata_access_witness :
    updateListVisibility ⟨[⟨"l1", "alice", "G", "t0", none, .priv, ["carol"], false⟩]⟩
        "bob" "l1" .public "t1" = .error "Forbidden"
    ∧ deleteListEntry ⟨[⟨"l1", "alice", "G", "t0", none, .priv, ["carol"], false⟩]⟩
        "bob" "l1" = .error "Forbidden"
    ∧ renameList ⟨[⟨"l1", "alice", "G", "t0", none, .priv, ["carol"], false⟩]⟩
        "bob" "l1" "N" "t1" = .error "Forbidden"
    ∧ (renameList ⟨[⟨"l1", "alice", "G", "t0", none, .priv, ["carol"], false⟩]⟩
        "carol" "l1" "N" "t1").isOk = true := by
  have h1 := registry_metadata_access
    ⟨[⟨"l1", "alice", "G", "t0", none, .priv, ["carol"], false⟩]⟩ "bob" "l1"
    ⟨"l1", "alice", "G", "t0", none, .priv, ["carol"], false⟩ .public false [] "N" "N" "t1"
    (by decide) (by decide)
  have h2 := registry_metadata_access
    ⟨[⟨"l1", "alice", "G", "t0", none, .priv, ["carol"], false⟩]⟩ "carol" "l1"
    ⟨"l1", "alice", "G", "t0", none, .priv, ["carol"], false⟩ .public false [] "N" "N" "t1"
    (by decide) (by decide)
  exact ⟨h1.1, h1.2.2.2.1, h1.2.2.2.2.1 (by decide) (by decide),
    h2.2.2.2.2.2 (by decide) (by decide)⟩

lemma updateFirst_any (p : α → Bool) (f : α → α) (hp : ∀ a, p (f a) = p a)
    (l : List α) : (updateFirst p f l).any p = l.any p := by
  induction l with
  | nil => rfl
  | cons x xs ih =>
    by_cases h : p x
    · simp [updateFirst, h, hp]
    · simp [updateFirst, h, ih]

lemma updateFirst_idem (p : α → Bool) (f : α → α) (hp : ∀ a, p (f a) = p a)
    (hf : ∀ a, f (f a) = f a) (l : List α) :
    updateFirst p f (updateFirst p f l) = updateFirst p f l := by
  induction l with
  | nil => rfl
  | cons x xs ih =>
    by_cases h : p x
    · simp [updateFirst, h, hp, hf]
    · simp [updateFirst, h, ih]

/-- C9: toggle_item_checked sets an explicit boolean target, so applying
the same toggle twice to a list document yields exactly the state produced
by applying it once. -/
theorem toggleItemChecked_idempotent (doc : ShoppingListDoc) (entry : ListAccess)
    (userId : UserId) (itemId : ItemId) (v : Bool) (d1 : ShoppingListDoc)
    (h : toggleItemChecked doc entry userId itemId v = .ok d1) :
    toggleItemChecked d1 entry userId itemId v = .ok d1 := by
  unfold toggleItemChecked at h ⊢
  cases he : ensureListEditable entry userId with
  | error e =>
    rw [he] at h
    simp [Bind.bind, Except.bind] at h
  | ok u =>
    cases u
    rw [he] at h
    simp only [Bind.bind, Except.bind] at h ⊢
    by_cases hany : doc.items.any (fun i => i.id == itemId)
    · rw [if_pos hany] at h
      have hp : ∀ a : ListItem,
          (({ a with checked := v } : ListItem).id == itemId) = (a.id == itemId) :=
        fun _ => rfl
      have hany2 : (updateFirst (fun i => i.id == itemId)
          (fun i => { i with checked := v }) doc.items).any
            (fun i => i.id == itemId) = true := by
        rw [updateFirst_any _ _ hp]
        exact hany
      have key := updateFirst_idem (fun i : ListItem => i.id == itemId)
        (fun i => { i with checked := v }) hp (fun _ => rfl) doc.items
      cases h
      simp [hany2, key]
    · rw [if_neg hany] at h
      simp at h

/-- Witness for toggleItemChecked_idempotent at a concrete list. -/
theorem toggleItemChecked_idempotent_witness :
    toggleItemChecked ⟨"l1", [⟨"i1", "Milk", "t0", "alice", none, none, none, true⟩]⟩
      ⟨"alice", .public, [], false⟩ "alice" "i1" true
    = .ok ⟨"l1", [⟨"i1", "Milk", "t0", "alice", none, none, none, true⟩]⟩ :=
  toggleItemChecked_idempotent
    ⟨"l1", [⟨"i1", "Milk", "t0", "alice", none, none, none, false⟩]⟩
    ⟨"alice", .public, [], false⟩ "alice" "i1" true
    ⟨"l1", [⟨"i1", "Milk", "t0", "alice", none, none, none, true⟩]⟩ (by decide)

/-- The §3 invariant on one registry document: no entry lists its owner as
a collaborator and no entry has duplicate collaborators. -/
def collaboratorsWF (doc : ListRegistryDoc) : Prop :=
  ∀ e ∈ doc.lists, e.ownerId ∉ e.collaborators ∧ e.collaborators.Nodup

lemma collabStep_wf (ownerId : UserId) (acc : List UserId) (x : UserId)
    (h1 : acc.Nodup) (h2 : ownerId ∉ acc) :
    (collabStep ownerId acc x).Nodup ∧ ownerId ∉ collabStep ownerId acc x := by
  simp only [collabStep]
  by_cases hc1 : jsTrim x = "" ∨ jsTrim x = ownerId
  · rw [if_pos hc1]
    exact ⟨h1, h2⟩
  · rw [if_neg hc1]
    by_cases hc2 : jsTrim x ∈ acc
    · rw [if_pos hc2]
      exact ⟨h1, h2⟩
    · rw [if_neg hc2]
      constructor
      · rw [← List.concat_eq_append]
        exact List.Nodup.concat hc2 h1
      · intro hmem
        rcases List.mem_append.mp hmem with hin | hsing
        · exact h2 hin
        · exact (not_or.mp hc1).2 ((List.mem_singleton.mp hsing).symm)

lemma foldl_collabStep_wf (ownerId : UserId) :
    ∀ (l acc : List UserId), acc.Nodup → ownerId ∉ acc →
    (l.foldl (collabStep ownerId) acc).Nodup
      ∧ ownerId ∉ l.foldl (collabStep ownerId) acc := by
  intro l
  induction l with
  | nil => intro acc h1 h2; exact ⟨h1, h2⟩
  | cons x xs ih =>
    intro acc h1 h2
    simp only [List.foldl_cons]
    have hstep := collabStep_wf ownerId acc x h1 h2
    exact ih _ hstep.1 hstep.2

lemma uniqueCollaborators_wf (collaborators : List UserId) (ownerId : UserId) :
    (uniqueCollaborators collaborators ownerId).Nodup
      ∧ ownerId ∉ uniqueCollaborators collaborators ownerId :=
  foldl_collabStep_wf ownerId collaborators [] (by simp) (by simp)

lemma mem_updateFirst_of_find (p : α → Bool) (f : α → α) :
    ∀ (l : List α) (a : α), l.find? p = some a →
      ∀ e ∈ updateFirst p f l, e ∈ l ∨ e = f a := by
  intro l
  induction l with
  | nil => intro a h; simp at h
  | cons x xs ih =>
    intro a h e he
    by_cases hx : p x
    · rw [List.find?_cons_of_pos _ hx] at h
      have hax : a = x := by
        cases h
        rfl
      simp only [updateFirst, if_pos hx] at he
      rcases List.mem_cons.mp he with h1 | h2
      · right
        rw [h1, hax]
      · left
        exact List.mem_cons_of_mem _ h2
    · rw [List.find?_cons_of_neg _ hx] at h
      simp only [updateFirst, if_neg hx] at he
      rcases List.mem_cons.mp he with h1 | h2
      · left
        rw [h1]
        exact List.mem_cons_self _ _
      · rcases ih a h e h2 with h3 | h4
        · left
          exact List.mem_cons_of_mem _ h3
        · right
          exact h4

lemma mem_removeFirst (p : α → Bool) :
    ∀ (l : List α) (e : α), e ∈ removeFirst p l → e ∈ l := by
  intro l
  induction l with
  | nil => intro e h; simp [removeFirst] at h
  | cons x xs ih =>
    intro e h
    by_cases hx : p x
    · simp only [removeFirst, if_pos hx] at h
      exact List.mem_cons_of_mem _ h
    · simp only [removeFirst, if_neg hx] at h
      rcases List.mem_cons.mp h with h1 | h2
      · rw [h1]
        exact List.mem_cons_self _ _
      · exact List.mem_cons_of_mem _ (ih e h2)

lemma requireListEntry_ok {doc : ListRegistryDoc} {listId : ListId}
    {entry : ListRegistryEntry} (h : requireListEntry doc listId = .ok entry) :
    doc.lists.find? (fun l => l.id == listId) = some entry := by
  unfold requireListEntry at h
  split at h
  next e heq =>
    cases h
    exact heq
  next heq => simp at h

lemma ensureOwner_ok {entry : ListRegistryEntry} {userId : UserId}
    (h : ensureOwner entry userId = .ok ()) : entry.ownerId = userId := by
  unfold ensureOwner at h
  by_cases hc : entry.ownerId ≠ userId
  · rw [if_pos hc] at h
    simp at h
  · exact not_not.mp hc

/-- C6: a successful create_list or set_collaborators stores the
deduplicated collaborator list, which never contains the owner; and every
registry-metadata action preserves, for every entry of the registry, the
invariant that collaborators exclude the owner and contain no
duplicates. -/
theorem registry_actions_preserve_collaborator_invariant
    (doc : ListRegistryDoc) (userId : UserId) (listId : ListId)
    (rawName now : String) (visibility : Visibility) (archived : Bool)
    (collaborators : List UserId) (freshListId : ListId)
    (hwf : collaboratorsWF doc) :
    (∀ doc2 lid, createList doc userId rawName visibility collaborators freshListId now
        = .ok (doc2, lid) → collaboratorsWF doc2)
    ∧ (∀ doc2, renameList doc userId listId rawName now = .ok doc2 →
        collaboratorsWF doc2)
    ∧ (∀ doc2, updateListVisibility doc userId listId visibility now = .ok doc2 →
        collaboratorsWF doc2)
    ∧ (∀ doc2, setCollaborators doc userId listId collaborators now = .ok doc2 →
        collaboratorsWF doc2)
    ∧ (∀ doc2, archiveList doc userId listId archived now = .ok doc2 →
        collaboratorsWF doc2)
    ∧ (∀ doc2, deleteListEntry doc userId listId = .ok doc2 →
        collaboratorsWF doc2) := by
  refine ⟨?_, ?_, ?_, ?_, ?_, ?_⟩
  · intro doc2 lid h
    cases hname : requireListName rawName with
    | error e => simp [createList, Bind.bind, Except.bind, hname] at h
    | ok name =>
      simp only [createList, Bind.bind, Except.bind, hname] at h
      by_cases hcnt : (doc.lists.filter
          (fun entry => entry.ownerId == userId && !entry.archived)).length
          ≥ MAX_LISTS_PER_USER
      · rw [if_pos hcnt] at h
        simp at h
      · rw [if_neg hcnt] at h
        simp only [Except.ok.injEq, Prod.mk.injEq] at h
        obtain ⟨h1, h2⟩ := h
        subst h1
        intro e he
        rcases List.mem_append.mp he with hm | hm
        · exact hwf e hm
        · have he2 := List.mem_singleton.mp hm
          subst he2
          exact ⟨(uniqueCollaborators_wf collaborators userId).2,
                 (uniqueCollaborators_wf collaborators userId).1⟩
  · intro doc2 h
    cases hname : requireListName rawName with
    | error e => simp [renameList, Bind.bind, Except.bind, hname] at h
    | ok name =>
      cases hentry : requireListEntry doc listId with
      | error e => simp [renameList, Bind.bind, Except.bind, hname, hentry] at h
      | ok entry =>
        cases hmeta : ensureCanEditMetadata entry.ownerId entry.collaborators userId with
        | error e =>
          simp [renameList, Bind.bind, Except.bind, hname, hentry, hmeta] at h
        | ok u =>
          cases u
          simp only [renameList, Bind.bind, Except.bind, hname, hentry, hmeta] at h
          injection h with h2
          subst h2
          intro e he
          have hfind := requireListEntry_ok hentry
          have hmem := List.mem_of_find?_eq_some hfind
          rcases mem_updateFirst_of_find _ _ doc.lists entry hfind e he with hm | hm
          · exact hwf e hm
          · subst hm
            exact ⟨(hwf entry hmem).1, (hwf entry hmem).2⟩
  · intro doc2 h
    cases hentry : requireListEntry doc listId with
    | error e => simp [updateListVisibility, Bind.bind, Except.bind, hentry] at h
    | ok entry =>
      cases howner : ensureOwner entry userId with
      | error e =>
        simp [updateListVisibility, Bind.bind, Except.bind, hentry, howner] at h
      | ok u =>
        cases u
        simp only [updateListVisibility, Bind.bind, Except.bind, hentry, howner] at h
        injection h with h2
        subst h2
        intro e he
        have hfind := requireListEntry_ok hentry
        have hmem := List.mem_of_find?_eq_some hfind
        rcases mem_updateFirst_of_find _ _ doc.lists entry hfind e he with hm | hm
        · exact hwf e hm
        · subst hm
          exact ⟨(hwf entry hmem).1, (hwf entry hmem).2⟩
  · intro doc2 h
    cases hentry : requireListEntry doc listId with
    | error e => simp [setCollaborators, Bind.bind, Except.bind, hentry] at h
    | ok entry =>
      cases howner : ensureOwner entry userId with
      | error e =>
        simp [setCollaborators, Bind.bind, Except.bind, hentry, howner] at h
      | ok u =>
        cases u
        simp only [setCollaborators, Bind.bind, Except.bind, hentry, howner] at h
        injection h with h2
        subst h2
        intro e he
        have hfind := requireListEntry_ok hentry
        have howner2 : entry.ownerId = userId := ensureOwner_ok howner
        rcases mem_updateFirst_of_find _ _ doc.lists entry hfind e he with hm | hm
        · exact hwf e hm
        · subst hm
          constructor
          · show entry.ownerId ∉ uniqueCollaborators collaborators userId
            rw [howner2]
            exact (uniqueCollaborators_wf collaborators userId).2
          · exact (uniqueCollaborators_wf collaborators userId).1
  · intro doc2 h
    cases hentry : requireListEntry doc listId with
    | error e => simp [archiveList, Bind.bind, Except.bind, hentry] at h
    | ok entry =>
      cases howner : ensureOwner entry userId with
      | error e => simp [archiveList, Bind.bind, Except.bind, hentry, howner] at h
      | ok u =>
        cases u
        simp only [archiveList, Bind.bind, Except.bind, hentry, howner] at h
        injection h with h2
        subst h2
        intro e he
        have hfind := requireListEntry_ok hentry
        have hmem := List.mem_of_find?_eq_some hfind
        rcases mem_updateFirst_of_find _ _ doc.lists entry hfind e he with hm | hm
        · exact hwf e hm
        · subst hm
          exact ⟨(hwf entry hmem).1, (hwf entry hmem).2⟩
  · intro doc2 h
    cases hentry : requireListEntry doc listId with
    | error e => simp [deleteListEntry, Bind.bind, Except.bind, hentry] at h
    | ok entry =>
      cases howner : ensureOwner entry userId with
      | error e =>
        simp [deleteListEntry, Bind.bind, Except.bind, hentry, howner] at h
      | ok u =>
        cases u
        simp only [deleteListEntry, Bind.bind, Except.bind, hentry, howner] at h
        injection h with h2
        subst h2
        intro e he
        exact hwf e (mem_removeFirst _ _ _ he)

/-- Witness for registry_actions_preserve_collaborator_invariant: creating
a list with a duplicated, whitespace-padded collaborator list that also
names the owner yields an entry with collaborators ["bob"] only. -/
theorem registry_collaborator_invariant_witness :
    collaboratorsWF ⟨[⟨"l1", "alice", "G", "t0", none, .priv, ["carol"], false⟩,
      ⟨"l2", "alice", "New", "t1", none, .priv, ["bob"], false⟩]⟩ :=
  (registry_actions_preserve_collaborator_invariant
    ⟨[⟨"l1", "alice", "G", "t0", none, .priv, ["carol"], false⟩]⟩
    "alice" "l1" "New" "t1" .priv false ["bob", " bob ", "alice"] "l2"
    (by unfold collaboratorsWF; decide)).1
    ⟨[⟨"l1", "alice", "G", "t0", none, .priv, ["carol"], false⟩,
      ⟨"l2", "alice", "New", "t1", none, .priv, ["bob"], false⟩]⟩ "l2" (by decide)

def isUnlink : FsOp → Bool
  | .unlink _ => true
  | _ => false

/-- C8 counterexample: the writeFileAtomic in `server/src/persist.ts` uses
the fixed temp sibling `<target>.tmp` — depending on the target alone, so
two concurrent writers of `data/registry.bin` use the same temp path — and
its trace contains no unlink when the rename fails. -/
theorem persist_writeFileAtomic_fixed_tmp_no_unlink :
    persistTmpPath "data/registry.bin" = "data/registry.bin.tmp"
    ∧ writeFileAtomicPersistOps "data/registry.bin" false
        = [.writeFile "data/registry.bin.tmp",
           .rename "data/registry.bin.tmp" "data/registry.bin"]
    ∧ (writeFileAtomicPersistOps "data/registry.bin" false).filter isUnlink = [] := by
  refine ⟨by decide, by decide, by decide⟩

lemma string_data_inj {u v : String} (h : u.data = v.data) : u = v := by
  cases u
  cases v
  simp_all

lemma string_append_left_cancel {a u v : String} (h : a ++ u = a ++ v) : u = v := by
  have hd := congrArg String.data h
  simp only [String.data_append] at hd
  exact string_data_inj (List.append_cancel_left hd)

lemma string_append_right_cancel {a u v : String} (h : u ++ a = v ++ a) : u = v := by
  have hd := congrArg String.data h
  simp only [String.data_append] at hd
  exact string_data_inj (List.append_cancel_right hd)

/-- C8 amended: the writeFileAtomic of the second document of
`server/src/listDocStore.ts` writes to the temp sibling
`<base>.<pid>.<now>.<uuid>.tmp` — distinct UUIDs give distinct temp paths,
so two concurrent writers never collide — renames it over the target, and
unlinks the temp exactly when the rename fails; the writeFileAtomic of
`server/src/persist.ts` instead always uses the fixed sibling
`<target>.tmp` and never unlinks. -/
theorem writeFileAtomic_listStore_unique_and_cleanup
    (target pid ts uuid1 uuid2 : String) (hne : uuid1 ≠ uuid2) :
    listStoreTmpPath target pid ts uuid1 ≠ listStoreTmpPath target pid ts uuid2
    ∧ writeFileAtomicListStoreOps target pid ts uuid1 true
        = [.writeFile (listStoreTmpPath target pid ts uuid1),
           .rename (listStoreTmpPath target pid ts uuid1) target]
    ∧ writeFileAtomicListStoreOps target pid ts uuid1 false
        = [.writeFile (listStoreTmpPath target pid ts uuid1),
           .rename (listStoreTmpPath target pid ts uuid1) target,
           .unlink (listStoreTmpPath target pid ts uuid1)]
    ∧ writeFileAtomicPersistOps target false
        = [.writeFile (target ++ ".tmp"), .rename (target ++ ".tmp") target] := by
  refine ⟨?_, rfl, rfl, rfl⟩
  intro heq
  unfold listStoreTmpPath pathJoin at heq
  by_cases hd : dirname target = "."
  · simp only [if_pos hd] at heq
    exact hne (string_append_left_cancel (string_append_right_cancel heq))
  · simp only [if_neg hd] at heq
    have h0 := string_append_left_cancel heq
    exact hne (string_append_left_cancel (string_append_right_cancel h0))

/-- Witness for writeFileAtomic_listStore_unique_and_cleanup at concrete
writers of the same list blob. -/
theorem writeFileAtomic_listStore_witness :
    listStoreTmpPath "data/lists/a.bin" "42" "170" "u1"
      ≠ listStoreTmpPath "data/lists/a.bin" "42" "170" "u2"
    ∧ writeFileAtomicListStoreOps "data/lists/a.bin" "42" "170" "u1" true
        = [.writeFile (listStoreTmpPath "data/lists/a.bin" "42" "170" "u1"),
           .rename (listStoreTmpPath "data/lists/a.bin" "42" "170" "u1") "data/lists/a.bin"]
    ∧ writeFileAtomicListStoreOps "data/lists/a.bin" "42" "170" "u1" false
        = [.writeFile (listStoreTmpPath "data/lists/a.bin" "42" "170" "u1"),
           .rename (listStoreTmpPath "data/lists/a.bin" "42" "170" "u1") "data/lists/a.bin",
           .unlink (listStoreTmpPath "data/lists/a.bin" "42" "170" "u1")]
    ∧ writeFileAtomicPersistOps "data/lists/a.bin" false
        = [.writeFile ("data/lists/a.bin" ++ ".tmp"),
           .rename ("data/lists/a.bin" ++ ".tmp") "data/lists/a.bin"] :=
  writeFileAtomic_listStore_unique_and_cleanup "data/lists/a.bin" "42" "170"
    "u1" "u2" (by decide)

/-- One E6 step: connection sends `add_bulletin{text:"hi"}` at time 0 with
a fresh bucket timestamp 0 (no refill elapses). -/
def c5Step (st : TokenBucket × BulletinDoc) : TokenBucket × BulletinDoc :=
  (bulletinActionStep (β := Unit) st.1 0 "alice" st.2
    (.add_bulletin "hi" none) "b" "t0").1

/-- The E6 run: a fresh connection bucket followed by `n` add_bulletin
frames with no delay. -/
def c5Run : Nat → TokenBucket × BulletinDoc
  | 0 => (TokenBucket.init RATE_LIMIT_CAPACITY RATE_LIMIT_REFILL_PER_SECOND 0, ⟨[]⟩)
  | n + 1 => c5Step (c5Run n)

lemma requireBulletinText_hi : requireBulletinText "hi" = .ok "hi" := by decide

lemma tokenBucket_refill_zero (b : TokenBucket) (hlast : b.lastRefill = 0) :
    b.refill 0 = b := by
  unfold TokenBucket.refill
  rw [if_pos (by rw [hlast])]

lemma c5_accept_step (b : TokenBucket) (doc : BulletinDoc)
    (hlast : b.lastRefill = 0) (htok : ¬ b.tokens < RATE_LIMIT_COST_ACTION) :
    bulletinActionStep (β := Unit) b 0 "alice" doc (.add_bulletin "hi" none) "b" "t0"
      = (({ b with tokens := b.tokens - RATE_LIMIT_COST_ACTION },
          ⟨doc.bulletins ++ [⟨"b", "alice", "hi", "t0", none, .public⟩]⟩), []) := by
  simp only [bulletinActionStep, TokenBucket.tryRemove,
    tokenBucket_refill_zero b hlast]
  rw [if_neg htok]
  simp [handleBulletinActionFn, addBulletin, requireBulletinText_hi,
    Bind.bind, Except.bind]

lemma c5_reject_step (b : TokenBucket) (doc : BulletinDoc)
    (hlast : b.lastRefill = 0) (htok : b.tokens < RATE_LIMIT_COST_ACTION) :
    bulletinActionStep (β := Unit) b 0 "alice" doc (.add_bulletin "hi" none) "b" "t0"
      = ((b, doc), [.errorFrame .RATE_LIMITED "Too many requests"]) := by
  simp only [bulletinActionStep, TokenBucket.tryRemove,
    tokenBucket_refill_zero b hlast]
  rw [if_pos htok]
  simp

lemma c5Run_spec : ∀ n, n ≤ 40 →
    (c5Run n).1.capacity = RATE_LIMIT_CAPACITY
    ∧ (c5Run n).1.refillPerMs = RATE_LIMIT_REFILL_PER_SECOND / 1000
    ∧ (c5Run n).1.lastRefill = 0
    ∧ (c5Run n).1.tokens = RATE_LIMIT_CAPACITY - (n : Rat)
    ∧ (c5Run n).2.bulletins.length = n := by
  intro n
  induction n with
  | zero =>
    intro _
    refine ⟨rfl, rfl, rfl, by simp [c5Run, TokenBucket.init], rfl⟩
  | succ n ih =>
    intro hn
    obtain ⟨h1, h2, h3, h4, h5⟩ := ih (by omega)
    have hcast : (n : Rat) ≤ 39 := by exact_mod_cast (by omega : n ≤ 39)
    have htok : ¬ (c5Run n).1.tokens < RATE_LIMIT_COST_ACTION := by
      rw [h4]
      unfold RATE_LIMIT_CAPACITY RATE_LIMIT_COST_ACTION
      intro hlt
      linarith
    have hstep := c5_accept_step (c5Run n).1 (c5Run n).2 h3 htok
    have hrun : c5Run (n + 1) = c5Step (c5Run n) := rfl
    rw [hrun]
    unfold c5Step
    rw [hstep]
    refine ⟨h1, h2, h3, ?_, ?_⟩
    · show (c5Run n).1.tokens - RATE_LIMIT_COST_ACTION
        = RATE_LIMIT_CAPACITY - ((n + 1 : Nat) : Rat)
      rw [h4]
      unfold RATE_LIMIT_COST_ACTION
      push_cast
      ring
    · show ((c5Run n).2.bulletins ++
          [Bulletin.mk "b" "alice" "hi" "t0" none .public]).length = n + 1
      rw [List.length_append, h5]
      rfl

/-- C5: the connection token bucket has capacity 40, refill 20 tokens per
second, action cost 1 and sync cost 0.25; starting from a fresh bucket
with no time elapsed, 40 add_bulletin frames all succeed (40 bulletins,
bucket drained to 0) and the 41st is answered with error{RATE_LIMITED},
deducts no tokens, and adds no bulletin. -/
theorem rate_limit_trips :
    RATE_LIMIT_CAPACITY = 40 ∧ RATE_LIMIT_REFILL_PER_SECOND = 20
    ∧ RATE_LIMIT_COST_ACTION = 1 ∧ RATE_LIMIT_COST_SYNC = 1 / 4
    ∧ (c5Run 40).2.bulletins.length = 40
    ∧ (c5Run 40).1.tokens = 0
    ∧ bulletinActionStep (β := Unit) (c5Run 40).1 0 "alice" (c5Run 40).2
        (.add_bulletin "hi" none) "b" "t0"
        = (((c5Run 40).1, (c5Run 40).2),
           [.errorFrame .RATE_LIMITED "Too many requests"]) := by
  obtain ⟨h1, h2, h3, h4, h5⟩ := c5Run_spec 40 (le_refl 40)
  have htok0 : (c5Run 40).1.tokens = 0 := by
    rw [h4]
    unfold RATE_LIMIT_CAPACITY
    norm_num
  have hlt : (c5Run 40).1.tokens < RATE_LIMIT_COST_ACTION := by
    rw [htok0]
    unfold RATE_LIMIT_COST_ACTION
    norm_num
  exact ⟨rfl, rfl, rfl, rfl, h5, htok0, c5_reject_step _ _ h3 hlt⟩

/-- C4 counterexample: a rename_list by a caller who is neither owner nor
collaborator throws `Forbidden`, and the session loop catch-all answers
with an error frame of code BAD_REQUEST — not FORBIDDEN — while the
connection stays in the set (no close call exists on this path). -/
theorem forbidden_action_maps_to_bad_request :
    (registryActionStep (β := Unit) ⟨"bob", true, []⟩
      (TokenBucket.init RATE_LIMIT_CAPACITY RATE_LIMIT_REFILL_PER_SECOND 0) 0
      ⟨⟨[⟨"l1", "alice", "G", "t0", none, .priv, [], false⟩]⟩, ⟨[]⟩, []⟩
      (.rename_list "l1" "x") "f1" "t1" (fun lid => ⟨lid, []⟩)).2
      = [.errorFrame .BAD_REQUEST "Forbidden"]
    ∧ ErrorCode.BAD_REQUEST ≠ ErrorCode.FORBIDDEN := by
  refine ⟨by decide, by decide⟩

/-- C4 amended: when a domain action fails — in particular on the
`Forbidden` role failures — the session loop sends the acting connection
one error frame whose code is BAD_REQUEST carrying the thrown message,
leaves the server context unchanged, and returns the connection unchanged
(socket still open); FORBIDDEN is emitted only by the list snapshot
access check, not by the catch-all. -/
theorem action_failure_response (conn : Connection Unit) (bucket : TokenBucket)
    (now : ℚ) (ctx : ServerContext2) (action : RegistryAction)
    (freshListId : ListId) (nowIso : String) (loadList : ListId → ShoppingListDoc)
    (e : String) (hopen : conn.socketOpen = true)
    (hrate : (bucket.tryRemove now RATE_LIMIT_COST_ACTION).1 = true)
    (hfail : handleRegistryAction_v2 conn.userId ctx action freshListId nowIso loadList
      = .error e) :
    registryActionStep (β := Unit) conn bucket now ctx action freshListId nowIso loadList
      = ((conn, (bucket.tryRemove now RATE_LIMIT_COST_ACTION).2, ctx),
         [.errorFrame .BAD_REQUEST e]) := by
  simp [registryActionStep, hrate, hfail, hopen]

/-- Witness for action_failure_response at a concrete forbidden rename. -/
theorem action_failure_response_witness :
    registryActionStep (β := Unit) ⟨"carol", true, []⟩
      (TokenBucket.init RATE_LIMIT_CAPACITY RATE_LIMIT_REFILL_PER_SECOND 0) 0
      ⟨⟨[⟨"l9", "dave", "G", "t0", none, .priv, [], false⟩]⟩, ⟨[]⟩, []⟩
      (.delete_list "l9") "f1" "t1" (fun lid => ⟨lid, []⟩)
      = ((⟨"carol", true, []⟩,
          ((TokenBucket.init RATE_LIMIT_CAPACITY RATE_LIMIT_REFILL_PER_SECOND 0).tryRemove
            0 RATE_LIMIT_COST_ACTION).2,
          ⟨⟨[⟨"l9", "dave", "G", "t0", none, .priv, [], false⟩]⟩, ⟨[]⟩, []⟩),
         [.errorFrame .BAD_REQUEST "Forbidden"]) :=
  action_failure_response ⟨"carol", true, []⟩
    (TokenBucket.init RATE_LIMIT_CAPACITY RATE_LIMIT_REFILL_PER_SECOND 0) 0
    ⟨⟨[⟨"l9", "dave", "G", "t0", none, .priv, [], false⟩]⟩, ⟨[]⟩, []⟩
    (.delete_list "l9") "f1" "t1" (fun lid => ⟨lid, []⟩) "Forbidden"
    (by decide) (by decide) (by decide)

/-- C2 counterexample: in the in-memory session-loop variant
(`unnamed/part_012` lines 1164-1197), a sync frame addressed at the
registry from a connection auto-subscribed to it is accepted — the
received document replaces `context.registryDoc` and no error is thrown,
so no BAD_REQUEST frame is sent and the registry is mutated via the CRDT
sync path. -/
theorem registry_sync_applied_in_memory_variant :
    handleSyncMessage_v2 (σ := Unit) (β := Unit)
      (fun _ _ _ =>
        (.registry ⟨[⟨"lx", "alice", "N", "t0", none, .priv, [], false⟩]⟩, ()))
      ⟨"alice", true, [("registry", ⟨.registry, ()⟩)]⟩
      ⟨⟨[]⟩, ⟨[]⟩, []⟩ .registry ()
    = .ok (⟨"alice", true, [("registry", ⟨.registry, ()⟩)]⟩,
           ⟨⟨[⟨"lx", "alice", "N", "t0", none, .priv, [], false⟩]⟩, ⟨[]⟩, []⟩)
    ∧ (⟨[⟨"lx", "alice", "N", "t0", none, .priv, [], false⟩]⟩ : ListRegistryDoc)
        ≠ ⟨[]⟩ := by
  refine ⟨by decide, by decide⟩

/-- C2 amended: the DB-backed handleSyncMessage (`unnamed/part_012` lines
484-527) rejects a registry sync frame by throwing "Registry sync is not
supported" before touching any document, which the session loop answers
with error{BAD_REQUEST}; the in-memory variant (lines 1164-1197) instead
applies receiveSyncMessage and replaces the authoritative registry
document, sending no error. -/
theorem registry_sync_rejection_variants {α σ β : Type}
    (nonRegistry : DocDescriptor → Except String α)
    (recv : AnyDoc → σ → β → AnyDoc × σ)
    (conn : Connection σ) (ctx : ServerContext2) (data : β)
    (sub : Subscription σ) (d2 : ListRegistryDoc) (s2 : σ)
    (hsub : lookupStr conn.subscriptions "registry" = some sub)
    (hrecv : recv (.registry ctx.registryDoc) sub.syncState data = (.registry d2, s2)) :
    handleSyncMessage_v1 nonRegistry .registry = .error "Registry sync is not supported"
    ∧ dispatchFrames (β := β) (.error "Registry sync is not supported")
        = [.errorFrame .BAD_REQUEST "Registry sync is not supported"]
    ∧ ∃ conn2, handleSyncMessage_v2 recv conn ctx .registry data
        = .ok (conn2, { ctx with registryDoc := d2 }) := by
  refine ⟨by simp [handleSyncMessage_v1], rfl, ?_⟩
  refine ⟨{ conn with subscriptions := insertStr conn.subscriptions "registry" ⟨.registry, s2⟩ }, ?_⟩
  simp only [handleSyncMessage_v2, descriptorKey, hsub, resolveDocForDescriptor]
  rw [hrecv]
  simp [setDocForDescriptor]

/-- Witness for registry_sync_rejection_variants at a concrete connection
and registry. -/
theorem registry_sync_rejection_variants_witness :
    handleSyncMessage_v1 (α := Unit) (fun _ => .ok ()) .registry
      = .error "Registry sync is not supported"
    ∧ dispatchFrames (β := Unit) (.error "Registry sync is not supported")
        = [.errorFrame .BAD_REQUEST "Registry sync is not supported"]
    ∧ ∃ conn2, handleSyncMessage_v2 (σ := Unit) (β := Unit)
        (fun _ _ _ =>
          (.registry ⟨[⟨"ly", "bob", "M", "t0", none, .public, [], false⟩]⟩, ()))
        ⟨"bob", true, [("registry", ⟨.registry, ()⟩)]⟩ ⟨⟨[]⟩, ⟨[]⟩, []⟩ .registry ()
        = .ok (conn2,
            ⟨⟨[⟨"ly", "bob", "M", "t0", none, .public, [], false⟩]⟩, ⟨[]⟩, []⟩) :=
  registry_sync_rejection_variants (fun _ => .ok ())
    (fun _ _ _ =>
      (.registry ⟨[⟨"ly", "bob", "M", "t0", none, .public, [], false⟩]⟩, ()))
    ⟨"bob", true, [("registry", ⟨.registry, ()⟩)]⟩ ⟨⟨[]⟩, ⟨[]⟩, []⟩ ()
    ⟨.registry, ()⟩ ⟨[⟨"ly", "bob", "M", "t0", none, .public, [], false⟩]⟩ ()
    (by decide) rfl

/-- The E2 entry: a private list owned by alice with no collaborators. -/
def c1Entry : ListRegistryEntry :=
  ⟨"l1", "alice", "G", "t0", none, .priv, [], false⟩

/-- Server context for the subscribe scenario: the registry holds
`c1Entry` and the list document for `l1` is cached (alice created and
used it). -/
def c1Ctx : ServerContext2 :=
  ⟨⟨[c1Entry]⟩, ⟨[]⟩,
   [("l1", ⟨"l1", [⟨"i1", "Milk", "t0", "alice", none, none, none, false⟩]⟩)]⟩

/-- bob (not visible on `c1Entry`) sends `subscribe{doc:{listId:"l1"}}`;
the sync generator emits one message for a fresh sync state, as
`Automerge.generateSyncMessage` does against a non-empty document. -/
def c1Subscribe : (Connection Bool × ServerContext2) × List (ServerFrame Unit) :=
  handleSubscribe_v2 (σ := Bool) (β := Unit) false (fun lid => ⟨lid, []⟩)
    (fun _ sent => (true, if sent then none else some ())) 2
    ⟨"bob", true, []⟩ c1Ctx (.list "l1")

/-- C1 (a code bug relative to the spec): bob is not authorized on the
private list `l1`, yet the subscribe handler registers the subscription
(it performs no visibility check), and while the snapshot is replaced by
error{FORBIDDEN}, the outbound sync loop still runs against the
authoritative list document and sends bob a sync frame referencing `l1`.
The claim that an inaccessible subscribe is refused and creates no
subscription is violated by this evaluation. -/
theorem subscribe_inaccessible_list_leaks_sync :
    isListVisibleTo c1Entry "bob" = false
    ∧ c1Subscribe.2
        = [.errorFrame .FORBIDDEN "No access to list", .syncMsg (.list "l1") ()]
    ∧ (lookupStr c1Subscribe.1.1.subscriptions "list:l1").isSome = true := by
  refine ⟨by decide, by decide, by decide⟩
